import Mathlib

/-!
Verification of the optimization core of `src/optimize.py`
(binary_search, golden_search, parabolic_search, gradient_descent,
steepest_gradient_descent) against its natural-language specification.

The Python code is shallowly embedded over an arbitrary linear ordered
field `K` (the code computes with IEEE floats; the spec reads them as
real numbers).  Vector-valued iterates of the descent methods live in a
`K`-module `V`.  The golden ratio `tau = (sqrt 5 + 1) / 2`, which the
Python code obtains from `np.sqrt`, is passed as an explicit parameter
so that every definition stays computable; theorems that depend on its
value carry the hypotheses `tau * tau = tau + 1` and `1 ≤ tau`, which
characterize it among field elements `≥ 1`.

Loops `for _ in range(max_steps): ...` that can only exit through a
`break` guarded at the top of the body are embedded either as
`max_steps`-fold iteration of a `pass` function that is the identity
once the break has fired (binary, golden, descent), or as structural
recursion on the remaining fuel (parabolic).  Both renderings agree
with the Python `range` semantics: the guard is evaluated at most
`max_steps` times and nothing runs after a `break`.
-/

namespace BenchmarkOpt

/-- Mirror of the `OptimizeResults` record the Python functions construct
(field `fun` is spelled `fun_` because `fun` is a Lean keyword).  `x` has
type `X` (a scalar for the searches, a vector for the descent methods);
`trajectory` is `some _` exactly when the Python code sets the attribute. -/
structure OptimizeResults (K X : Type) where
  success : Bool
  message : String
  fun_ : K
  jac : Option X
  nfev : Nat
  njev : Nat
  nhev : Nat
  nit : Nat
  x : X
  trajectory : Option (List X)

variable {K : Type} [LinearOrderedField K]

/-- Loop state of `binary_search`: bracket `[a, b]`, centre `c`, and the
`nfev`/`nit`/`success` locals of the Python function. -/
structure BinState (K : Type) where
  a : K
  b : K
  c : K
  nfev : Nat
  nit : Nat
  success : Bool

/-- One execution of the body of the `for` loop of `binary_search`
(the part after the `break` guard):
`nit += 1; y = (a+c)/2; nfev += 2; if f(y) <= f(c): b, c = c, y
else: nfev += 2; z = (b+c)/2; if f(c) <= f(z): a, b = y, z else: a, c = c, z`. -/
def binaryBody (f : K → K) (s : BinState K) : BinState K :=
  let y := (s.a + s.c) / 2
  if f y ≤ f s.c then
    { s with b := s.c, c := y, nfev := s.nfev + 2, nit := s.nit + 1 }
  else
    let z := (s.b + s.c) / 2
    if f s.c ≤ f z then
      { s with a := y, b := z, nfev := s.nfev + 4, nit := s.nit + 1 }
    else
      { s with a := s.c, c := z, nfev := s.nfev + 4, nit := s.nit + 1 }

/-- One round of the `for` loop of `binary_search`:
`if abs(b - a) <= accuracy: success = True; break`, else the body.
Once the break has fired this is the identity, so iterating it
`max_steps` times is exactly `for _ in range(max_steps)` with the break. -/
def binaryPass (f : K → K) (accuracy : K) (s : BinState K) : BinState K :=
  if |s.b - s.a| ≤ accuracy then { s with success := true } else binaryBody f s

/-- Embedding of `Optimize.binary_search`. -/
def binary_search (f : K → K) (a b : K) (accuracy : K) (max_steps : Nat) :
    OptimizeResults K K :=
  let s := (binaryPass f accuracy)^[max_steps] ⟨a, b, (a + b) / 2, 0, 0, false⟩
  { success := s.success, message := "", fun_ := f s.c, jac := none,
    nfev := s.nfev, njev := 0, nhev := 0, nit := s.nit, x := s.c, trajectory := none }

/-- Loop state of `golden_search`: bracket `[a, b]`, interior probes `y, z`,
and the `nfev`/`nit`/`success` locals. -/
structure GoldState (K : Type) where
  a : K
  b : K
  y : K
  z : K
  nfev : Nat
  nit : Nat
  success : Bool

/-- One execution of the body of the `for` loop of `golden_search`:
`nit += 1; nfev += 2; if f(y) <= f(z): b, z, y = z, y, a + (b-a)/tau**2
else: a, y, z = y, z, a + (b-a)/tau`. -/
def goldenBody (tau : K) (f : K → K) (s : GoldState K) : GoldState K :=
  if f s.y ≤ f s.z then
    { s with
        b := s.z, z := s.y, y := s.a + (s.z - s.a) / tau ^ 2,
        nfev := s.nfev + 2, nit := s.nit + 1 }
  else
    { s with
        a := s.y, y := s.z, z := s.y + (s.b - s.y) / tau,
        nfev := s.nfev + 2, nit := s.nit + 1 }

/-- One round of the `for` loop of `golden_search`:
`if b - a <= accuracy: success = True; break`, else the body. -/
def goldenPass (tau : K) (f : K → K) (accuracy : K) (s : GoldState K) : GoldState K :=
  if s.b - s.a ≤ accuracy then { s with success := true } else goldenBody tau f s

/-- Embedding of `Optimize.golden_search`; `tau` stands for the value
`(np.sqrt(5) + 1) / 2` the Python code computes. -/
def golden_search (tau : K) (f : K → K) (a b : K) (accuracy : K) (max_steps : Nat) :
    OptimizeResults K K :=
  let s := (goldenPass tau f accuracy)^[max_steps]
    ⟨a, b, a + (b - a) / tau ^ 2, a + (b - a) / tau, 0, 0, false⟩
  let x_opt := (s.a + s.b) / 2
  { success := s.success, message := "", fun_ := f x_opt, jac := none,
    nfev := s.nfev, njev := 0, nhev := 0, nit := s.nit, x := x_opt, trajectory := none }

/-- Loop state of `parabolic_search`: the triple `x1, x2, x3`, the cached
values `f1, f2, f3`, and the `nfev`/`nit`/`success` locals. -/
structure ParState (K : Type) where
  x1 : K
  x2 : K
  x3 : K
  f1 : K
  f2 : K
  f3 : K
  nfev : Nat
  nit : Nat
  success : Bool

/-- One execution of the body of the `for` loop of `parabolic_search`
(vertex formula, then the four-way triple replacement).  Field division
in Lean totalizes the `u` formula with `x / 0 = 0` where Python would
raise `ZeroDivisionError`; no theorem below evaluates `u` at a vanishing
denominator. -/
def parabolicBody (f : K → K) (s : ParState K) : ParState K :=
  let u := s.x2 - ((s.x2 - s.x1) ^ 2 * (s.f2 - s.f3) - (s.x2 - s.x3) ^ 2 * (s.f2 - s.f1)) /
    (2 * ((s.x2 - s.x1) * (s.f2 - s.f3) - (s.x2 - s.x3) * (s.f2 - s.f1)))
  let fu := f u
  if s.x2 ≤ u then
    if s.f2 ≤ fu then
      { s with x3 := u, f3 := fu, nfev := s.nfev + 1, nit := s.nit + 1 }
    else
      { s with x1 := s.x2, x2 := u, f1 := s.f2, f2 := fu, nfev := s.nfev + 1, nit := s.nit + 1 }
  else
    if fu ≤ s.f2 then
      { s with x2 := u, x3 := s.x2, f2 := fu, f3 := s.f2, nfev := s.nfev + 1, nit := s.nit + 1 }
    else
      { s with x1 := u, f1 := fu, nfev := s.nfev + 1, nit := s.nit + 1 }

/-- The `for` loop of `parabolic_search` with the remaining iteration count
as fuel: `for _ in range(n): if x3 - x1 > accuracy: break; <body>`.
Note the guard really is `>` in the source (inverted relative to the other
two searches), and no branch of the loop ever assigns `success`. -/
def parabolicLoop (f : K → K) (accuracy : K) : Nat → ParState K → ParState K
  | 0, s => s
  | n + 1, s =>
    if s.x3 - s.x1 > accuracy then s
    else parabolicLoop f accuracy n (parabolicBody f s)

/-- Embedding of `Optimize.parabolic_search`. -/
def parabolic_search (f : K → K) (a b : K) (accuracy : K) (max_steps : Nat) :
    OptimizeResults K K :=
  let s := parabolicLoop f accuracy max_steps
    ⟨a, (a + b) / 2, b, f a, f ((a + b) / 2), f b, 0, 0, false⟩
  let x_opt := (s.x1 + s.x3) / 2
  { success := s.success, message := "", fun_ := f x_opt, jac := none,
    nfev := s.nfev, njev := 0, nhev := 0, nit := s.nit, x := x_opt, trajectory := none }

/-- Loop state shared by `gradient_descent` and `steepest_gradient_descent`:
current iterate `x`, the recorded trajectory, and the `success`/`nfev`/
`njev`/`nit` locals. -/
structure DescentState (V : Type) where
  x : V
  trajectory : List V
  success : Bool
  nfev : Nat
  njev : Nat
  nit : Nat

/-- Truth value of the Python guard `accept_test and accept_test(df, x, accuracy)`:
`False` when `accept_test` is `None`, otherwise the verdict of the predicate. -/
def acceptHolds {V : Type} (accept_test : Option ((V → V) → V → K → Bool))
    (df : V → V) (x : V) (accuracy : K) : Bool :=
  match accept_test with
  | none => false
  | some t => t df x accuracy

/-- The Python statement `if trajectory_flag: trajectory.append(x)` at the top of each
descent iteration. -/
def recordStep {V : Type} (trajectory_flag : Bool) (s : DescentState V) : DescentState V :=
  if trajectory_flag then { s with trajectory := s.trajectory ++ [s.x] } else s

@[simp] lemma recordStep_x {V : Type} (tf : Bool) (s : DescentState V) :
    (recordStep tf s).x = s.x := by
  cases tf <;> rfl

@[simp] lemma recordStep_success {V : Type} (tf : Bool) (s : DescentState V) :
    (recordStep tf s).success = s.success := by
  cases tf <;> rfl

@[simp] lemma recordStep_nit {V : Type} (tf : Bool) (s : DescentState V) :
    (recordStep tf s).nit = s.nit := by
  cases tf <;> rfl

@[simp] lemma recordStep_njev {V : Type} (tf : Bool) (s : DescentState V) :
    (recordStep tf s).njev = s.njev := by
  cases tf <;> rfl

@[simp] lemma recordStep_nfev {V : Type} (tf : Bool) (s : DescentState V) :
    (recordStep tf s).nfev = s.nfev := by
  cases tf <;> rfl

@[simp] lemma recordStep_traj_true {V : Type} (s : DescentState V) :
    (recordStep true s).trajectory = s.trajectory ++ [s.x] := rfl

/-- State in which a descent loop breaks out via `accept_test`: the current
point has just been appended (when recording) and `success` is set; `x`,
`njev`, `nit` are untouched. -/
def stopState {V : Type} (trajectory_flag : Bool) (s : DescentState V) : DescentState V :=
  { recordStep trajectory_flag s with success := true }

@[simp] lemma stopState_x {V : Type} (tf : Bool) (s : DescentState V) :
    (stopState tf s).x = s.x := by
  cases tf <;> rfl

@[simp] lemma stopState_success {V : Type} (tf : Bool) (s : DescentState V) :
    (stopState tf s).success = true := rfl

@[simp] lemma stopState_nit {V : Type} (tf : Bool) (s : DescentState V) :
    (stopState tf s).nit = s.nit := by
  cases tf <;> rfl

@[simp] lemma stopState_njev {V : Type} (tf : Bool) (s : DescentState V) :
    (stopState tf s).njev = s.njev := by
  cases tf <;> rfl

@[simp] lemma stopState_nfev {V : Type} (tf : Bool) (s : DescentState V) :
    (stopState tf s).nfev = s.nfev := by
  cases tf <;> rfl

@[simp] lemma stopState_traj_true {V : Type} (s : DescentState V) :
    (stopState true s).trajectory = s.trajectory ++ [s.x] := rfl

/-- State after one full descent iteration that did not break: append (when
recording), then `x = upd(x); njev += 1; nit += 1`.  The append leaves `x`,
`njev` and `nit` unchanged, so they are read off `s` directly. -/
def advanceStep {V : Type} (upd : V → V) (trajectory_flag : Bool) (s : DescentState V) :
    DescentState V :=
  { recordStep trajectory_flag s with x := upd s.x, njev := s.njev + 1, nit := s.nit + 1 }

@[simp] lemma advanceStep_x {V : Type} (upd : V → V) (tf : Bool) (s : DescentState V) :
    (advanceStep upd tf s).x = upd s.x := rfl

@[simp] lemma advanceStep_success {V : Type} (upd : V → V) (tf : Bool) (s : DescentState V) :
    (advanceStep upd tf s).success = s.success := by
  cases tf <;> rfl

@[simp] lemma advanceStep_nit {V : Type} (upd : V → V) (tf : Bool) (s : DescentState V) :
    (advanceStep upd tf s).nit = s.nit + 1 := rfl

@[simp] lemma advanceStep_njev {V : Type} (upd : V → V) (tf : Bool) (s : DescentState V) :
    (advanceStep upd tf s).njev = s.njev + 1 := rfl

@[simp] lemma advanceStep_nfev {V : Type} (upd : V → V) (tf : Bool) (s : DescentState V) :
    (advanceStep upd tf s).nfev = s.nfev := by
  cases tf <;> rfl

@[simp] lemma advanceStep_traj_true {V : Type} (upd : V → V) (s : DescentState V) :
    (advanceStep upd true s).trajectory = s.trajectory ++ [s.x] := rfl

/-- The `for` loop skeleton shared verbatim by `gradient_descent` and
`steepest_gradient_descent` in the source, with the remaining iteration
count as fuel; `upd` is the only part in which the two methods differ:
`if trajectory_flag: trajectory.append(x)`;
`if accept_test and accept_test(df, x, accuracy): success = True; break`;
`x = <upd>(x); njev += 1; nit += 1`.
The guard reads the same `x` whether or not the append happened, so it is
written `stop s.x`; the append is part of `stopState`/`advanceStep`. -/
def descentLoop {V : Type} (upd : V → V) (stop : V → Bool) (trajectory_flag : Bool) :
    Nat → DescentState V → DescentState V
  | 0, s => s
  | n + 1, s =>
    if stop s.x then stopState trajectory_flag s
    else descentLoop upd stop trajectory_flag n (advanceStep upd trajectory_flag s)

variable {V : Type} [AddCommGroup V] [Module K V]

/-- Update `x = x - step_size * df(x)` performed by one `gradient_descent`
iteration. -/
def gdUpdate (df : V → V) (step_size : K) (x : V) : V :=
  x - step_size • df x

/-- Embedding of `Optimize.gradient_descent`. -/
def gradient_descent (f : V → K) (df : V → V) (x0 : V) (step_size : K)
    (max_steps : Nat) (accuracy : K) (trajectory_flag : Bool)
    (accept_test : Option ((V → V) → V → K → Bool)) : OptimizeResults K V :=
  let s := descentLoop (gdUpdate df step_size)
    (fun x => acceptHolds accept_test df x accuracy) trajectory_flag max_steps
    ⟨x0, [], false, 0, 0, 0⟩
  { success := s.success, message := "", fun_ := f s.x, jac := some (df s.x),
    nfev := s.nfev, njev := s.njev, nhev := 0, nit := s.nit, x := s.x,
    trajectory := if trajectory_flag then some s.trajectory else none }

/-- Update performed by one `steepest_gradient_descent` iteration:
`grad = df(x)`;
`step_size = golden_search(f=lambda alpha: f(x - alpha * grad), a=0, b=1, max_steps=1000)`
(with the default `accuracy=1e-5` of `golden_search`); `x = x - step_size.x * grad`. -/
def sgdUpdate (tau : K) (f : V → K) (df : V → V) (x : V) : V :=
  let grad := df x
  x - (golden_search tau (fun alpha => f (x - alpha • grad)) 0 1 (1 / 100000) 1000).x • grad

/-- Embedding of `Optimize.steepest_gradient_descent`; `tau` is the golden
ratio handed on to the inner `golden_search`. -/
def steepest_gradient_descent (tau : K) (f : V → K) (df : V → V) (x0 : V)
    (max_steps : Nat) (accuracy : K) (trajectory_flag : Bool)
    (accept_test : Option ((V → V) → V → K → Bool)) : OptimizeResults K V :=
  let s := descentLoop (sgdUpdate tau f df)
    (fun x => acceptHolds accept_test df x accuracy) trajectory_flag max_steps
    ⟨x0, [], false, 0, 0, 0⟩
  { success := s.success, message := "", fun_ := f s.x, jac := some (df s.x),
    nfev := s.nfev, njev := s.njev, nhev := 0, nit := s.nit, x := s.x,
    trajectory := if trajectory_flag then some s.trajectory else none }

/-- When the stopping predicate never holds, the descent loop performs one
update per unit of fuel: `success` is left untouched and `nit` grows by the
full fuel. -/
lemma descentLoop_stopFalse {V : Type} (upd : V → V) (stop : V → Bool) (tf : Bool)
    (hstop : ∀ x, stop x = false) :
    ∀ (n : Nat) (s : DescentState V),
      (descentLoop upd stop tf n s).success = s.success ∧
      (descentLoop upd stop tf n s).nit = s.nit + n := by
  intro n
  induction n with
  | zero => intro s; simp [descentLoop]
  | succ m ih =>
    intro s
    simp only [descentLoop, hstop, Bool.false_eq_true, if_false]
    refine ⟨((ih _).1).trans (by simp), ((ih _).2).trans (by simp; omega)⟩

/-- The descent loop never touches the `nfev` counter. -/
lemma descentLoop_nfev {V : Type} (upd : V → V) (stop : V → Bool) (tf : Bool) :
    ∀ (n : Nat) (s : DescentState V), (descentLoop upd stop tf n s).nfev = s.nfev := by
  intro n
  induction n with
  | zero => intro s; simp [descentLoop]
  | succ m ih =>
    intro s
    simp only [descentLoop]
    by_cases h : stop s.x = true
    · simp [h]
    · simp only [Bool.not_eq_true] at h
      simp only [h, Bool.false_eq_true, if_false]
      exact (ih _).trans (by simp)

/-- With trajectory recording on, the trajectory grows by one entry per
executed round, and the round that fires the stopping predicate appends the
accepted point before breaking; hence the final length is `nit` plus one
exactly when the loop stopped early. -/
lemma descentLoop_traj_len {V : Type} (upd : V → V) (stop : V → Bool) :
    ∀ (n : Nat) (s : DescentState V), s.success = false →
      s.trajectory.length = s.nit →
      (descentLoop upd stop true n s).trajectory.length =
        (descentLoop upd stop true n s).nit +
          (if (descentLoop upd stop true n s).success = true then 1 else 0) := by
  intro n
  induction n with
  | zero =>
    intro s hsucc hlen
    simp [descentLoop, hsucc, hlen]
  | succ m ih =>
    intro s hsucc hlen
    simp only [descentLoop]
    by_cases h : stop s.x = true
    · simp [h, hlen]
    · simp only [Bool.not_eq_true] at h
      simp only [h, Bool.false_eq_true, if_false]
      exact ih _ (by simp [hsucc]) (by simp [hlen])

/-- With trajectory recording on and at least one unit of fuel, the first
recorded point is the entry iterate. -/
lemma descentLoop_traj_first {V : Type} (upd : V → V) (stop : V → Bool) :
    ∀ (n : Nat) (s : DescentState V), 1 ≤ n →
      ∃ r : List V, (descentLoop upd stop true n s).trajectory = s.trajectory ++ s.x :: r := by
  intro n
  induction n with
  | zero => intro s h; omega
  | succ m ih =>
    intro s _
    simp only [descentLoop]
    by_cases h : stop s.x = true
    · exact ⟨[], by simp [h]⟩
    · simp only [Bool.not_eq_true] at h
      simp only [h, Bool.false_eq_true, if_false]
      rcases Nat.eq_zero_or_pos m with hm | hm
      · subst hm
        exact ⟨[], by simp [descentLoop]⟩
      · obtain ⟨r, hr⟩ := ih (advanceStep upd true s) hm
        exact ⟨upd s.x :: r, by rw [hr]; simp⟩

/-- If the stopping predicate first holds at the `k`-th iterate (`k` below
the fuel), the descent loop returns that iterate with `success = true`,
having performed exactly `k` updates. -/
lemma descentLoop_first_hit {V : Type} (upd : V → V) (stop : V → Bool) (tf : Bool) :
    ∀ (k n : Nat) (s : DescentState V), s.success = false → k < n →
      (∀ j, j < k → stop (upd^[j] s.x) = false) → stop (upd^[k] s.x) = true →
      (descentLoop upd stop tf n s).success = true ∧
      (descentLoop upd stop tf n s).x = upd^[k] s.x ∧
      (descentLoop upd stop tf n s).nit = s.nit + k := by
  intro k
  induction k with
  | zero =>
    intro n s hsucc hkn hbefore hat
    cases n with
    | zero => omega
    | succ m =>
      simp only [Function.iterate_zero_apply] at hat ⊢
      simp only [descentLoop, hat, if_true]
      exact ⟨by simp, by simp, by simp⟩
  | succ k ih =>
    intro n s hsucc hkn hbefore hat
    cases n with
    | zero => omega
    | succ m =>
      have h0 : stop s.x = false := by simpa using hbefore 0 (Nat.succ_pos k)
      simp only [descentLoop, h0, Bool.false_eq_true, if_false]
      have hres := ih m (advanceStep upd tf s) (by simp [hsucc]) (by omega)
        (by
          intro j hj
          rw [advanceStep_x, ← Function.iterate_succ_apply]
          exact hbefore (j + 1) (by omega))
        (by rw [advanceStep_x, ← Function.iterate_succ_apply]; exact hat)
      refine ⟨hres.1, ?_, ?_⟩
      · rw [hres.2.1, advanceStep_x, ← Function.iterate_succ_apply]
      · rw [hres.2.2, advanceStep_nit]
        omega

/-- One binary-search body step keeps the bracket ordered and centred,
shrinks it into itself, and exactly halves its width. -/
lemma binaryBody_inv (f : K → K) (s : BinState K) (hab : s.a ≤ s.b)
    (hc : s.c = (s.a + s.b) / 2) :
    (binaryBody f s).a ≤ (binaryBody f s).b ∧
    (binaryBody f s).c = ((binaryBody f s).a + (binaryBody f s).b) / 2 ∧
    s.a ≤ (binaryBody f s).a ∧ (binaryBody f s).b ≤ s.b ∧
    (binaryBody f s).b - (binaryBody f s).a = (s.b - s.a) / 2 := by
  simp only [binaryBody]
  split_ifs with h1 h2
  · refine ⟨?_, rfl, le_refl _, ?_, ?_⟩ <;> dsimp only <;> rw [hc]
    · linarith
    · linarith
    · ring
  · refine ⟨?_, ?_, ?_, ?_, ?_⟩ <;> dsimp only <;> rw [hc]
    · linarith
    · ring
    · linarith
    · linarith
    · ring
  · refine ⟨?_, ?_, ?_, le_refl _, ?_⟩ <;> dsimp only <;> rw [hc]
    · linarith
    · ring
    · linarith
    · ring

/-- One binary-search loop round preserves the bracket invariants and never
lets the width grow. -/
lemma binaryPass_inv (f : K → K) (accuracy : K) (s : BinState K) (hab : s.a ≤ s.b)
    (hc : s.c = (s.a + s.b) / 2) :
    (binaryPass f accuracy s).a ≤ (binaryPass f accuracy s).b ∧
    (binaryPass f accuracy s).c =
      ((binaryPass f accuracy s).a + (binaryPass f accuracy s).b) / 2 ∧
    s.a ≤ (binaryPass f accuracy s).a ∧ (binaryPass f accuracy s).b ≤ s.b ∧
    (binaryPass f accuracy s).b - (binaryPass f accuracy s).a ≤ s.b - s.a := by
  unfold binaryPass
  split_ifs with h
  · exact ⟨hab, hc, le_refl _, le_refl _, le_refl _⟩
  · obtain ⟨i1, i2, i3, i4, i5⟩ := binaryBody_inv f s hab hc
    exact ⟨i1, i2, i3, i4, by rw [i5]; linarith⟩

/-- Every state the binary-search loop reaches from an ordered bracket is an
ordered, centred sub-bracket of the initial one. -/
lemma binaryIter_inv (f : K → K) (accuracy : K) (a b : K) (hab : a ≤ b) (n : Nat) :
    ((binaryPass f accuracy)^[n] ⟨a, b, (a + b) / 2, 0, 0, false⟩).a ≤
      ((binaryPass f accuracy)^[n] ⟨a, b, (a + b) / 2, 0, 0, false⟩).b ∧
    ((binaryPass f accuracy)^[n] ⟨a, b, (a + b) / 2, 0, 0, false⟩).c =
      (((binaryPass f accuracy)^[n] ⟨a, b, (a + b) / 2, 0, 0, false⟩).a +
        ((binaryPass f accuracy)^[n] ⟨a, b, (a + b) / 2, 0, 0, false⟩).b) / 2 ∧
    a ≤ ((binaryPass f accuracy)^[n] ⟨a, b, (a + b) / 2, 0, 0, false⟩).a ∧
    ((binaryPass f accuracy)^[n] ⟨a, b, (a + b) / 2, 0, 0, false⟩).b ≤ b := by
  induction n with
  | zero => exact ⟨hab, rfl, le_refl _, le_refl _⟩
  | succ m ih =>
    obtain ⟨i1, i2, i3, i4⟩ := ih
    rw [Function.iterate_succ_apply']
    obtain ⟨j1, j2, j3, j4, -⟩ := binaryPass_inv f accuracy _ i1 i2
    exact ⟨j1, j2, le_trans i3 j3, le_trans j4 i4⟩

/-- Derived facts about the golden ratio used by the golden-section
invariants: `1/tau = tau - 1` and `1/tau² = 2 - tau`. -/
lemma golden_inv_facts (tau : K) (htau : tau * tau = tau + 1) (h1tau : 1 ≤ tau) :
    tau⁻¹ = tau - 1 ∧ (tau ^ 2)⁻¹ = 2 - tau ∧ 0 < tau := by
  have h0 : 0 < tau := lt_of_lt_of_le one_pos h1tau
  have hone : tau * (tau - 1) = 1 := by rw [mul_sub, htau]; ring
  have hi : tau⁻¹ = tau - 1 := inv_eq_of_mul_eq_one_right hone
  refine ⟨hi, ?_, h0⟩
  rw [pow_two, mul_inv, hi]
  linear_combination htau

/-- One golden-section body step keeps the bracket ordered, keeps the two
interior probes at their golden positions, shrinks the bracket into itself,
and never lets the width grow. -/
lemma goldenBody_inv (tau : K) (f : K → K) (htau : tau * tau = tau + 1) (h1tau : 1 ≤ tau)
    (s : GoldState K) (hab : s.a ≤ s.b)
    (hy : s.y = s.a + (s.b - s.a) / tau ^ 2) (hz : s.z = s.a + (s.b - s.a) / tau) :
    (goldenBody tau f s).a ≤ (goldenBody tau f s).b ∧
    (goldenBody tau f s).y = (goldenBody tau f s).a +
      ((goldenBody tau f s).b - (goldenBody tau f s).a) / tau ^ 2 ∧
    (goldenBody tau f s).z = (goldenBody tau f s).a +
      ((goldenBody tau f s).b - (goldenBody tau f s).a) / tau ∧
    s.a ≤ (goldenBody tau f s).a ∧ (goldenBody tau f s).b ≤ s.b ∧
    (goldenBody tau f s).b - (goldenBody tau f s).a ≤ s.b - s.a := by
  obtain ⟨hi, hi2, h0⟩ := golden_inv_facts tau htau h1tau
  have hw : 0 ≤ s.b - s.a := by linarith
  have h1sq : (1 : K) ≤ tau ^ 2 := by nlinarith
  have hdiv1 : (s.b - s.a) / tau ≤ s.b - s.a := div_le_self hw h1tau
  have hdiv1' : 0 ≤ (s.b - s.a) / tau := div_nonneg hw (le_of_lt h0)
  have hdiv2 : (s.b - s.a) / tau ^ 2 ≤ s.b - s.a := div_le_self hw h1sq
  have hdiv2' : 0 ≤ (s.b - s.a) / tau ^ 2 := div_nonneg hw (by positivity)
  simp only [goldenBody]
  split_ifs with h1
  · refine ⟨?_, rfl, ?_, le_refl _, ?_, ?_⟩ <;> dsimp only
    · rw [hz]; linarith
    · rw [hy, hz]
      simp only [div_eq_mul_inv, hi, hi2]
      linear_combination (s.a - s.b) * htau
    · rw [hz]; linarith
    · rw [hz]; linarith
  · refine ⟨?_, ?_, rfl, ?_, le_refl _, ?_⟩ <;> dsimp only
    · rw [hy]; linarith
    · rw [hy, hz]
      simp only [div_eq_mul_inv, hi, hi2]
      linear_combination (s.b - s.a) * htau
    · rw [hy]; linarith
    · rw [hy]; linarith

/-- One golden-section loop round preserves the bracket invariants and never
lets the width grow. -/
lemma goldenPass_inv (tau : K) (f : K → K) (accuracy : K) (htau : tau * tau = tau + 1)
    (h1tau : 1 ≤ tau) (s : GoldState K) (hab : s.a ≤ s.b)
    (hy : s.y = s.a + (s.b - s.a) / tau ^ 2) (hz : s.z = s.a + (s.b - s.a) / tau) :
    (goldenPass tau f accuracy s).a ≤ (goldenPass tau f accuracy s).b ∧
    (goldenPass tau f accuracy s).y = (goldenPass tau f accuracy s).a +
      ((goldenPass tau f accuracy s).b - (goldenPass tau f accuracy s).a) / tau ^ 2 ∧
    (goldenPass tau f accuracy s).z = (goldenPass tau f accuracy s).a +
      ((goldenPass tau f accuracy s).b - (goldenPass tau f accuracy s).a) / tau ∧
    s.a ≤ (goldenPass tau f accuracy s).a ∧ (goldenPass tau f accuracy s).b ≤ s.b ∧
    (goldenPass tau f accuracy s).b - (goldenPass tau f accuracy s).a ≤ s.b - s.a := by
  unfold goldenPass
  split_ifs with h
  · exact ⟨hab, hy, hz, le_refl _, le_refl _, le_refl _⟩
  · exact goldenBody_inv tau f htau h1tau s hab hy hz

/-- Every state the golden-section loop reaches from an ordered bracket is an
ordered sub-bracket of the initial one with the probes at their golden
positions. -/
lemma goldenIter_inv (tau : K) (f : K → K) (accuracy : K) (a b : K)
    (htau : tau * tau = tau + 1) (h1tau : 1 ≤ tau) (hab : a ≤ b) (n : Nat) :
    ((goldenPass tau f accuracy)^[n]
        ⟨a, b, a + (b - a) / tau ^ 2, a + (b - a) / tau, 0, 0, false⟩).a ≤
      ((goldenPass tau f accuracy)^[n]
        ⟨a, b, a + (b - a) / tau ^ 2, a + (b - a) / tau, 0, 0, false⟩).b ∧
    ((goldenPass tau f accuracy)^[n]
        ⟨a, b, a + (b - a) / tau ^ 2, a + (b - a) / tau, 0, 0, false⟩).y =
      ((goldenPass tau f accuracy)^[n]
        ⟨a, b, a + (b - a) / tau ^ 2, a + (b - a) / tau, 0, 0, false⟩).a +
        (((goldenPass tau f accuracy)^[n]
          ⟨a, b, a + (b - a) / tau ^ 2, a + (b - a) / tau, 0, 0, false⟩).b -
          ((goldenPass tau f accuracy)^[n]
            ⟨a, b, a + (b - a) / tau ^ 2, a + (b - a) / tau, 0, 0, false⟩).a) / tau ^ 2 ∧
    ((goldenPass tau f accuracy)^[n]
        ⟨a, b, a + (b - a) / tau ^ 2, a + (b - a) / tau, 0, 0, false⟩).z =
      ((goldenPass tau f accuracy)^[n]
        ⟨a, b, a + (b - a) / tau ^ 2, a + (b - a) / tau, 0, 0, false⟩).a +
        (((goldenPass tau f accuracy)^[n]
          ⟨a, b, a + (b - a) / tau ^ 2, a + (b - a) / tau, 0, 0, false⟩).b -
          ((goldenPass tau f accuracy)^[n]
            ⟨a, b, a + (b - a) / tau ^ 2, a + (b - a) / tau, 0, 0, false⟩).a) / tau ∧
    a ≤ ((goldenPass tau f accuracy)^[n]
        ⟨a, b, a + (b - a) / tau ^ 2, a + (b - a) / tau, 0, 0, false⟩).a ∧
    ((goldenPass tau f accuracy)^[n]
        ⟨a, b, a + (b - a) / tau ^ 2, a + (b - a) / tau, 0, 0, false⟩).b ≤ b := by
  induction n with
  | zero => exact ⟨hab, rfl, rfl, le_refl _, le_refl _⟩
  | succ m ih =>
    obtain ⟨i1, i2, i3, i4, i5⟩ := ih
    rw [Function.iterate_succ_apply']
    obtain ⟨j1, j2, j3, j4, j5, -⟩ := goldenPass_inv tau f accuracy htau h1tau _ i1 i2 i3
    exact ⟨j1, j2, j3, le_trans i4 j4, le_trans j5 i5⟩

/-- The parabolic loop body never assigns `success`. -/
lemma parabolicBody_success (f : K → K) (s : ParState K) :
    (parabolicBody f s).success = s.success := by
  simp only [parabolicBody]
  split_ifs <;> rfl

/-- No branch of the parabolic loop ever assigns `success`. -/
lemma parabolicLoop_success (f : K → K) (accuracy : K) :
    ∀ (n : Nat) (s : ParState K), (parabolicLoop f accuracy n s).success = s.success := by
  intro n
  induction n with
  | zero => intro s; rfl
  | succ m ih =>
    intro s
    simp only [parabolicLoop]
    split_ifs
    · rfl
    · rw [ih _, parabolicBody_success]

/-- C1: claimed, for all five operations, `success = true` iff the loop
terminated via its stopping condition (bracket width within accuracy for the
searches) rather than by exhausting `max_steps`.  The code violates this for
`parabolic_search`: no branch of its loop ever sets `success`, so `success`
is `false` on every call, and on the concrete input `f = id`, `a = 0`,
`b = 1`, `accuracy = 1/1000`, `max_steps = 5` the loop exits at once through
its inverted `x3 - x1 > accuracy` break — `nit = 0 < max_steps`, the bracket
is still of width `1` — yet `success = false`. -/
theorem c1_parabolic_success_always_false (f : K → K) (a b accuracy : K) (ms : Nat) :
    (parabolic_search f a b accuracy ms).success = false ∧
    (parabolic_search (fun x : ℚ => x) 0 1 (1/1000) 5).nit = 0 ∧
    (parabolic_search (fun x : ℚ => x) 0 1 (1/1000) 5).success = false := by
  refine ⟨?_, ?_, ?_⟩
  · simpa [parabolic_search] using parabolicLoop_success f accuracy ms _
  · norm_num [parabolic_search, parabolicLoop]
  · simpa [parabolic_search] using parabolicLoop_success (fun x : ℚ => x) (1/1000) 5 _

/-- C2: claimed, `parabolic_search` repeatedly fits a parabola and terminates
when `x3 - x1 ≤ accuracy`.  The code does the opposite: its loop guard is
`if x3 - x1 > accuracy: break`, so on `f = fun x => x * x`, `a = 0`, `b = 1`,
`accuracy = 1/100`, `max_steps = 10` (a bracket still far wider than the
accuracy) it performs zero parabolic steps — `nit = 0`, `nfev = 0` — and
returns the untouched midpoint `1/2` with `success = false`. -/
theorem c2_parabolic_breaks_immediately :
    (parabolic_search (fun x : ℚ => x * x) 0 1 (1/100) 10).nit = 0 ∧
    (parabolic_search (fun x : ℚ => x * x) 0 1 (1/100) 10).nfev = 0 ∧
    (parabolic_search (fun x : ℚ => x * x) 0 1 (1/100) 10).x = 1/2 ∧
    (parabolic_search (fun x : ℚ => x * x) 0 1 (1/100) 10).success = false := by
  refine ⟨?_, ?_, ?_, ?_⟩ <;> norm_num [parabolic_search, parabolicLoop]

/-- C3 fails as stated: when `gradient_descent` stops early through an
always-true `accept_test`, the pre-update iterate has already been appended,
so the trajectory has one entry while `iterations = 0`. -/
theorem c3_counterexample_early_stop_length :
    (gradient_descent (fun x : ℚ => x * x) (fun x => x + x) 7 (1/2) 3 (1/1000) true
      (some (fun _ _ _ => true))).nit = 0 ∧
    ((gradient_descent (fun x : ℚ => x * x) (fun x => x + x) 7 (1/2) 3 (1/1000) true
      (some (fun _ _ _ => true))).trajectory.getD []).length = 1 := by
  constructor <;>
    norm_num [gradient_descent, descentLoop, acceptHolds, stopState, recordStep]

/-- C3 amended: with `trajectory_flag = true` the returned trajectory length
equals `iterations` plus one exactly when the loop stopped early via
`accept_test` (the accepted point is appended before the test), and equals
`iterations` when the loop ran to `max_steps`; whenever `max_steps ≥ 1` the
first trajectory entry is the starting point `x0`.  This holds for both
`gradient_descent` and `steepest_gradient_descent`. -/
theorem c3_amended_trajectory_length_and_head (f : V → K) (df : V → V) (x0 : V)
    (step_size : K) (max_steps : Nat) (accuracy : K)
    (accept_test : Option ((V → V) → V → K → Bool)) (tau : K)
    (h : 1 ≤ max_steps) :
    (((gradient_descent f df x0 step_size max_steps accuracy true accept_test).trajectory.getD
        []).length =
      (gradient_descent f df x0 step_size max_steps accuracy true accept_test).nit +
        (if (gradient_descent f df x0 step_size max_steps accuracy true accept_test).success =
            true then 1 else 0) ∧
      ((gradient_descent f df x0 step_size max_steps accuracy true accept_test).trajectory.getD
        []).head? = some x0) ∧
    (((steepest_gradient_descent tau f df x0 max_steps accuracy true accept_test).trajectory.getD
        []).length =
      (steepest_gradient_descent tau f df x0 max_steps accuracy true accept_test).nit +
        (if (steepest_gradient_descent tau f df x0 max_steps accuracy true
            accept_test).success = true then 1 else 0) ∧
      ((steepest_gradient_descent tau f df x0 max_steps accuracy true
        accept_test).trajectory.getD []).head? = some x0) := by
  constructor
  · constructor
    · simpa [gradient_descent] using
        descentLoop_traj_len (gdUpdate df step_size)
          (fun x => acceptHolds accept_test df x accuracy) max_steps
          ⟨x0, [], false, 0, 0, 0⟩ rfl rfl
    · obtain ⟨r, hr⟩ := descentLoop_traj_first (gdUpdate df step_size)
        (fun x => acceptHolds accept_test df x accuracy) max_steps
        ⟨x0, [], false, 0, 0, 0⟩ h
      simp only [gradient_descent]
      rw [hr]
      simp
  · constructor
    · simpa [steepest_gradient_descent] using
        descentLoop_traj_len (sgdUpdate tau f df)
          (fun x => acceptHolds accept_test df x accuracy) max_steps
          ⟨x0, [], false, 0, 0, 0⟩ rfl rfl
    · obtain ⟨r, hr⟩ := descentLoop_traj_first (sgdUpdate tau f df)
        (fun x => acceptHolds accept_test df x accuracy) max_steps
        ⟨x0, [], false, 0, 0, 0⟩ h
      simp only [steepest_gradient_descent]
      rw [hr]
      simp

/-- Witness for `c3_amended_trajectory_length_and_head` at a concrete input. -/
theorem c3_witness :
    1 ≤ 2 ∧
    ((((gradient_descent (fun x : ℚ => x * x) (fun x => x + x) 5 (1/2) 2 (1/1000) true
          none).trajectory.getD []).length =
        (gradient_descent (fun x : ℚ => x * x) (fun x => x + x) 5 (1/2) 2 (1/1000) true
          none).nit +
          (if (gradient_descent (fun x : ℚ => x * x) (fun x => x + x) 5 (1/2) 2 (1/1000) true
              none).success = true then 1 else 0) ∧
        ((gradient_descent (fun x : ℚ => x * x) (fun x => x + x) 5 (1/2) 2 (1/1000) true
          none).trajectory.getD []).head? = some 5) ∧
      (((steepest_gradient_descent 2 (fun x : ℚ => x * x) (fun x => x + x) 5 2 (1/1000) true
          none).trajectory.getD []).length =
        (steepest_gradient_descent 2 (fun x : ℚ => x * x) (fun x => x + x) 5 2 (1/1000) true
          none).nit +
          (if (steepest_gradient_descent 2 (fun x : ℚ => x * x) (fun x => x + x) 5 2 (1/1000)
              true none).success = true then 1 else 0) ∧
        ((steepest_gradient_descent 2 (fun x : ℚ => x * x) (fun x => x + x) 5 2 (1/1000) true
          none).trajectory.getD []).head? = some 5)) :=
  ⟨by decide,
    c3_amended_trajectory_length_and_head (fun x : ℚ => x * x) (fun x => x + x) 5 (1/2) 2
      (1/1000) none 2 (by decide)⟩

/-- C5: if a supplied `accept_test` first holds at the `k`-th iterate with
`k < max_steps`, both descent methods stop there with `success = true`,
return that pre-update iterate unchanged as the solution, and report
`iterations = k` (no update is applied to the accepted point). -/
theorem c5_accept_test_stops_before_update (f : V → K) (df : V → V) (x0 : V)
    (step_size : K) (max_steps : Nat) (accuracy : K) (tf : Bool)
    (t t' : (V → V) → V → K → Bool) (tau : K) (k k' : Nat)
    (hk : k < max_steps)
    (hbefore : ∀ j, j < k → t df ((gdUpdate df step_size)^[j] x0) accuracy = false)
    (hat : t df ((gdUpdate df step_size)^[k] x0) accuracy = true)
    (hk' : k' < max_steps)
    (hbefore' : ∀ j, j < k' → t' df ((sgdUpdate tau f df)^[j] x0) accuracy = false)
    (hat' : t' df ((sgdUpdate tau f df)^[k'] x0) accuracy = true) :
    ((gradient_descent f df x0 step_size max_steps accuracy tf (some t)).success = true ∧
      (gradient_descent f df x0 step_size max_steps accuracy tf (some t)).x =
        (gdUpdate df step_size)^[k] x0 ∧
      (gradient_descent f df x0 step_size max_steps accuracy tf (some t)).nit = k) ∧
    ((steepest_gradient_descent tau f df x0 max_steps accuracy tf (some t')).success = true ∧
      (steepest_gradient_descent tau f df x0 max_steps accuracy tf (some t')).x =
        (sgdUpdate tau f df)^[k'] x0 ∧
      (steepest_gradient_descent tau f df x0 max_steps accuracy tf (some t')).nit = k') := by
  constructor
  · have h := descentLoop_first_hit (gdUpdate df step_size)
      (fun x => acceptHolds (some t) df x accuracy) tf k max_steps
      ⟨x0, [], false, 0, 0, 0⟩ rfl hk (fun j hj => hbefore j hj) hat
    exact ⟨by simpa [gradient_descent] using h.1,
      by simpa [gradient_descent] using h.2.1,
      by simpa [gradient_descent] using h.2.2⟩
  · have h := descentLoop_first_hit (sgdUpdate tau f df)
      (fun x => acceptHolds (some t') df x accuracy) tf k' max_steps
      ⟨x0, [], false, 0, 0, 0⟩ rfl hk' (fun j hj => hbefore' j hj) hat'
    exact ⟨by simpa [steepest_gradient_descent] using h.1,
      by simpa [steepest_gradient_descent] using h.2.1,
      by simpa [steepest_gradient_descent] using h.2.2⟩

/-- Witness for `c5_accept_test_stops_before_update` at a concrete input. -/
theorem c5_witness :
    0 < 3 ∧
    ((gradient_descent (fun x : ℚ => x * x) (fun x => x + x) 1 (1/2) 3 (1/1000) true
        (some (fun _ _ _ => true))).success = true ∧
      (gradient_descent (fun x : ℚ => x * x) (fun x => x + x) 1 (1/2) 3 (1/1000) true
        (some (fun _ _ _ => true))).x =
        (gdUpdate (fun x : ℚ => x + x) ((1 : ℚ)/2))^[0] 1 ∧
      (gradient_descent (fun x : ℚ => x * x) (fun x => x + x) 1 (1/2) 3 (1/1000) true
        (some (fun _ _ _ => true))).nit = 0) ∧
    ((steepest_gradient_descent 2 (fun x : ℚ => x * x) (fun x => x + x) 1 3 (1/1000) true
        (some (fun _ _ _ => true))).success = true ∧
      (steepest_gradient_descent 2 (fun x : ℚ => x * x) (fun x => x + x) 1 3 (1/1000) true
        (some (fun _ _ _ => true))).x =
        (sgdUpdate 2 (fun x : ℚ => x * x) (fun x => x + x))^[0] 1 ∧
      (steepest_gradient_descent 2 (fun x : ℚ => x * x) (fun x => x + x) 1 3 (1/1000) true
        (some (fun _ _ _ => true))).nit = 0) :=
  ⟨by decide,
    c5_accept_test_stops_before_update (fun x : ℚ => x * x) (fun x => x + x) 1 (1/2) 3
      (1/1000) true (fun _ _ _ => true) (fun _ _ _ => true) 2 0 0
      (by decide) (fun j hj => absurd hj (Nat.not_lt_zero j)) rfl
      (by decide) (fun j hj => absurd hj (Nat.not_lt_zero j)) rfl⟩

/-- C6: with `accept_test` omitted (`None`) there is no default convergence
check: both descent methods always run exactly `max_steps` iterations and
return `success = false`, `iterations = max_steps`, for every objective,
gradient and starting point. -/
theorem c6_no_accept_test_runs_full_budget (f : V → K) (df : V → V) (x0 : V)
    (step_size : K) (max_steps : Nat) (accuracy : K) (tf : Bool) (tau : K) :
    ((gradient_descent f df x0 step_size max_steps accuracy tf none).success = false ∧
      (gradient_descent f df x0 step_size max_steps accuracy tf none).nit = max_steps) ∧
    ((steepest_gradient_descent tau f df x0 max_steps accuracy tf none).success = false ∧
      (steepest_gradient_descent tau f df x0 max_steps accuracy tf none).nit = max_steps) := by
  constructor
  · have h := descentLoop_stopFalse (gdUpdate df step_size)
      (fun x => acceptHolds (none : Option ((V → V) → V → K → Bool)) df x accuracy) tf
      (fun x => rfl) max_steps ⟨x0, [], false, 0, 0, 0⟩
    exact ⟨by simpa [gradient_descent] using h.1,
      by simpa [gradient_descent] using h.2⟩
  · have h := descentLoop_stopFalse (sgdUpdate tau f df)
      (fun x => acceptHolds (none : Option ((V → V) → V → K → Bool)) df x accuracy) tf
      (fun x => rfl) max_steps ⟨x0, [], false, 0, 0, 0⟩
    exact ⟨by simpa [steepest_gradient_descent] using h.1,
      by simpa [steepest_gradient_descent] using h.2⟩

/-- C7: every operation called with `max_steps = 0` returns immediately with
`success = false`, `iterations = 0`, and solution `(a + b) / 2` (the three
bracketing searches) or `x0` (the two descent methods). -/
theorem c7_max_steps_zero_immediate_return (f : K → K) (a b accuracy : K) (tau : K)
    (g : V → K) (df : V → V) (x0 : V) (step_size : K) (tf : Bool)
    (accept_test : Option ((V → V) → V → K → Bool)) :
    ((binary_search f a b accuracy 0).success = false ∧
      (binary_search f a b accuracy 0).nit = 0 ∧
      (binary_search f a b accuracy 0).x = (a + b) / 2) ∧
    ((golden_search tau f a b accuracy 0).success = false ∧
      (golden_search tau f a b accuracy 0).nit = 0 ∧
      (golden_search tau f a b accuracy 0).x = (a + b) / 2) ∧
    ((parabolic_search f a b accuracy 0).success = false ∧
      (parabolic_search f a b accuracy 0).nit = 0 ∧
      (parabolic_search f a b accuracy 0).x = (a + b) / 2) ∧
    ((gradient_descent g df x0 step_size 0 accuracy tf accept_test).success = false ∧
      (gradient_descent g df x0 step_size 0 accuracy tf accept_test).nit = 0 ∧
      (gradient_descent g df x0 step_size 0 accuracy tf accept_test).x = x0) ∧
    ((steepest_gradient_descent tau g df x0 0 accuracy tf accept_test).success = false ∧
      (steepest_gradient_descent tau g df x0 0 accuracy tf accept_test).nit = 0 ∧
      (steepest_gradient_descent tau g df x0 0 accuracy tf accept_test).x = x0) := by
  refine ⟨⟨?_, ?_, ?_⟩, ⟨?_, ?_, ?_⟩, ⟨?_, ?_, ?_⟩, ⟨?_, ?_, ?_⟩, ⟨?_, ?_, ?_⟩⟩ <;>
    simp [binary_search, golden_search, parabolic_search, gradient_descent,
      steepest_gradient_descent, parabolicLoop, descentLoop]

/-- C8: `gradient_descent` never evaluates the objective `f` inside the loop:
every returned field except `fun` is unchanged when `f` is replaced by any
other function, `fun` is `f` evaluated once at the returned solution, and
the counters the loop body leaves untouched — `nfev` and `nhev` — are `0`
in the result. -/
theorem c8_gradient_descent_never_evaluates_objective_in_loop (f f' : V → K)
    (df : V → V) (x0 : V) (step_size : K) (max_steps : Nat) (accuracy : K) (tf : Bool)
    (accept_test : Option ((V → V) → V → K → Bool)) :
    (gradient_descent f df x0 step_size max_steps accuracy tf accept_test).nfev = 0 ∧
    (gradient_descent f df x0 step_size max_steps accuracy tf accept_test).nhev = 0 ∧
    (gradient_descent f df x0 step_size max_steps accuracy tf accept_test).fun_ =
      f (gradient_descent f df x0 step_size max_steps accuracy tf accept_test).x ∧
    (gradient_descent f df x0 step_size max_steps accuracy tf accept_test).x =
      (gradient_descent f' df x0 step_size max_steps accuracy tf accept_test).x ∧
    (gradient_descent f df x0 step_size max_steps accuracy tf accept_test).success =
      (gradient_descent f' df x0 step_size max_steps accuracy tf accept_test).success ∧
    (gradient_descent f df x0 step_size max_steps accuracy tf accept_test).nit =
      (gradient_descent f' df x0 step_size max_steps accuracy tf accept_test).nit ∧
    (gradient_descent f df x0 step_size max_steps accuracy tf accept_test).njev =
      (gradient_descent f' df x0 step_size max_steps accuracy tf accept_test).njev ∧
    (gradient_descent f df x0 step_size max_steps accuracy tf accept_test).trajectory =
      (gradient_descent f' df x0 step_size max_steps accuracy tf accept_test).trajectory := by
  refine ⟨?_, rfl, rfl, rfl, rfl, rfl, rfl, rfl⟩
  simpa [gradient_descent] using
    descentLoop_nfev (gdUpdate df step_size)
      (fun x => acceptHolds accept_test df x accuracy) tf max_steps ⟨x0, [], false, 0, 0, 0⟩

/-- C4: for `binary_search` and `golden_search`, from any initial bracket
with `a ≤ b` (in particular `a < b`), every loop iteration leaves the bracket
width `b - a` non-increasing, for every objective `f`; `tau` is the golden
ratio, characterized by `tau * tau = tau + 1` and `1 ≤ tau`. -/
theorem c4_bracket_width_nonincreasing (f : K → K) (a b accuracy tau : K)
    (hab : a ≤ b) (htau : tau * tau = tau + 1) (h1tau : 1 ≤ tau) (n : Nat) :
    ((binaryPass f accuracy)^[n + 1] ⟨a, b, (a + b) / 2, 0, 0, false⟩).b -
        ((binaryPass f accuracy)^[n + 1] ⟨a, b, (a + b) / 2, 0, 0, false⟩).a ≤
      ((binaryPass f accuracy)^[n] ⟨a, b, (a + b) / 2, 0, 0, false⟩).b -
        ((binaryPass f accuracy)^[n] ⟨a, b, (a + b) / 2, 0, 0, false⟩).a ∧
    ((goldenPass tau f accuracy)^[n + 1]
          ⟨a, b, a + (b - a) / tau ^ 2, a + (b - a) / tau, 0, 0, false⟩).b -
        ((goldenPass tau f accuracy)^[n + 1]
          ⟨a, b, a + (b - a) / tau ^ 2, a + (b - a) / tau, 0, 0, false⟩).a ≤
      ((goldenPass tau f accuracy)^[n]
          ⟨a, b, a + (b - a) / tau ^ 2, a + (b - a) / tau, 0, 0, false⟩).b -
        ((goldenPass tau f accuracy)^[n]
          ⟨a, b, a + (b - a) / tau ^ 2, a + (b - a) / tau, 0, 0, false⟩).a := by
  constructor
  · obtain ⟨i1, i2, -, -⟩ := binaryIter_inv f accuracy a b hab n
    rw [Function.iterate_succ_apply']
    exact (binaryPass_inv f accuracy _ i1 i2).2.2.2.2
  · obtain ⟨i1, i2, i3, -, -⟩ := goldenIter_inv tau f accuracy a b htau h1tau hab n
    rw [Function.iterate_succ_apply']
    exact (goldenPass_inv tau f accuracy htau h1tau _ i1 i2 i3).2.2.2.2.2

/-- Witness for `c4_bracket_width_nonincreasing` at a concrete input over `ℝ`
with the true golden ratio. -/
theorem c4_witness :
    (0 : ℝ) ≤ 1 ∧ goldenRatio * goldenRatio = goldenRatio + 1 ∧ 1 ≤ goldenRatio ∧
    (((binaryPass (fun x : ℝ => x) (1/2))^[0 + 1] ⟨0, 1, (0 + 1) / 2, 0, 0, false⟩).b -
        ((binaryPass (fun x : ℝ => x) (1/2))^[0 + 1] ⟨0, 1, (0 + 1) / 2, 0, 0, false⟩).a ≤
      ((binaryPass (fun x : ℝ => x) (1/2))^[0] ⟨0, 1, (0 + 1) / 2, 0, 0, false⟩).b -
        ((binaryPass (fun x : ℝ => x) (1/2))^[0] ⟨0, 1, (0 + 1) / 2, 0, 0, false⟩).a ∧
    ((goldenPass goldenRatio (fun x : ℝ => x) (1/2))^[0 + 1]
          ⟨0, 1, 0 + (1 - 0) / goldenRatio ^ 2, 0 + (1 - 0) / goldenRatio, 0, 0, false⟩).b -
        ((goldenPass goldenRatio (fun x : ℝ => x) (1/2))^[0 + 1]
          ⟨0, 1, 0 + (1 - 0) / goldenRatio ^ 2, 0 + (1 - 0) / goldenRatio, 0, 0, false⟩).a ≤
      ((goldenPass goldenRatio (fun x : ℝ => x) (1/2))^[0]
          ⟨0, 1, 0 + (1 - 0) / goldenRatio ^ 2, 0 + (1 - 0) / goldenRatio, 0, 0, false⟩).b -
        ((goldenPass goldenRatio (fun x : ℝ => x) (1/2))^[0]
          ⟨0, 1, 0 + (1 - 0) / goldenRatio ^ 2, 0 + (1 - 0) / goldenRatio, 0, 0,
            false⟩).a) :=
  ⟨by norm_num, by rw [← pow_two]; exact gold_sq, one_lt_gold.le,
    c4_bracket_width_nonincreasing (fun x : ℝ => x) 0 1 (1/2) goldenRatio (by norm_num)
      (by rw [← pow_two]; exact gold_sq) one_lt_gold.le 0⟩

/-- C9 fails as stated: the code performs no input validation at all.  On the
malformed bracket `a = 1 > 0 = b` (with `f = id`, `accuracy = 1/1000`,
`max_steps = 2`) `binary_search` does not fail fast at the call boundary:
its loop body runs the full two iterations (`nit = 2`) and an ordinary
`Result` with `success = false` is returned. -/
theorem c9_counterexample_reversed_bracket_loops :
    (binary_search (fun x : ℚ => x) 1 0 (1/1000) 2).nit = 2 ∧
    (binary_search (fun x : ℚ => x) 1 0 (1/1000) 2).success = false ∧
    (binary_search (fun x : ℚ => x) 1 0 (1/1000) 2).x = 1/8 := by
  refine ⟨?_, ?_, ?_⟩ <;> norm_num [binary_search, binaryPass, binaryBody,
    Function.iterate_succ_apply, Function.iterate_zero_apply, abs]

/-- C9 amended: no operation validates its inputs; malformed calls return an
ordinary `Result` instead of raising a precondition violation.  In
particular a degenerate bracket `a = b` is not rejected: with any
`accuracy ≥ 0` and `max_steps ≥ 1`, `binary_search` and `golden_search`
"succeed" immediately on it (`success = true`, `nit = 0`, solution `a`). -/
theorem c9_amended_no_input_validation (f : K → K) (a accuracy tau : K) (ms : Nat)
    (hacc : 0 ≤ accuracy) (hms : 1 ≤ ms) :
    ((binary_search f a a accuracy ms).success = true ∧
      (binary_search f a a accuracy ms).nit = 0 ∧
      (binary_search f a a accuracy ms).x = a) ∧
    ((golden_search tau f a a accuracy ms).success = true ∧
      (golden_search tau f a a accuracy ms).nit = 0 ∧
      (golden_search tau f a a accuracy ms).x = a) := by
  obtain ⟨m, rfl⟩ : ∃ m, ms = m + 1 := ⟨ms - 1, by omega⟩
  have hpass0 : binaryPass f accuracy ⟨a, a, (a + a) / 2, 0, 0, false⟩ =
      ⟨a, a, (a + a) / 2, 0, 0, true⟩ := by
    unfold binaryPass
    rw [if_pos (by simpa using hacc)]
  have hpass1 : binaryPass f accuracy ⟨a, a, (a + a) / 2, 0, 0, true⟩ =
      ⟨a, a, (a + a) / 2, 0, 0, true⟩ := by
    unfold binaryPass
    rw [if_pos (by simpa using hacc)]
  have hiter : (binaryPass f accuracy)^[m + 1] ⟨a, a, (a + a) / 2, 0, 0, false⟩ =
      ⟨a, a, (a + a) / 2, 0, 0, true⟩ := by
    rw [Function.iterate_succ_apply, hpass0, Function.iterate_fixed hpass1]
  have gpass0 : goldenPass tau f accuracy
      ⟨a, a, a + (a - a) / tau ^ 2, a + (a - a) / tau, 0, 0, false⟩ =
      ⟨a, a, a + (a - a) / tau ^ 2, a + (a - a) / tau, 0, 0, true⟩ := by
    unfold goldenPass
    rw [if_pos (by simpa using hacc)]
  have gpass1 : goldenPass tau f accuracy
      ⟨a, a, a + (a - a) / tau ^ 2, a + (a - a) / tau, 0, 0, true⟩ =
      ⟨a, a, a + (a - a) / tau ^ 2, a + (a - a) / tau, 0, 0, true⟩ := by
    unfold goldenPass
    rw [if_pos (by simpa using hacc)]
  have giter : (goldenPass tau f accuracy)^[m + 1]
      ⟨a, a, a + (a - a) / tau ^ 2, a + (a - a) / tau, 0, 0, false⟩ =
      ⟨a, a, a + (a - a) / tau ^ 2, a + (a - a) / tau, 0, 0, true⟩ := by
    rw [Function.iterate_succ_apply, gpass0, Function.iterate_fixed gpass1]
  refine ⟨⟨?_, ?_, ?_⟩, ⟨?_, ?_, ?_⟩⟩
  · show ((binaryPass f accuracy)^[m + 1] ⟨a, a, (a + a) / 2, 0, 0, false⟩).success = true
    rw [hiter]
  · show ((binaryPass f accuracy)^[m + 1] ⟨a, a, (a + a) / 2, 0, 0, false⟩).nit = 0
    rw [hiter]
  · show ((binaryPass f accuracy)^[m + 1] ⟨a, a, (a + a) / 2, 0, 0, false⟩).c = a
    rw [hiter]
    show (a + a) / 2 = a
    ring
  · show ((goldenPass tau f accuracy)^[m + 1]
        ⟨a, a, a + (a - a) / tau ^ 2, a + (a - a) / tau, 0, 0, false⟩).success = true
    rw [giter]
  · show ((goldenPass tau f accuracy)^[m + 1]
        ⟨a, a, a + (a - a) / tau ^ 2, a + (a - a) / tau, 0, 0, false⟩).nit = 0
    rw [giter]
  · show (((goldenPass tau f accuracy)^[m + 1]
          ⟨a, a, a + (a - a) / tau ^ 2, a + (a - a) / tau, 0, 0, false⟩).a +
        ((goldenPass tau f accuracy)^[m + 1]
          ⟨a, a, a + (a - a) / tau ^ 2, a + (a - a) / tau, 0, 0, false⟩).b) / 2 = a
    rw [giter]
    show (a + a) / 2 = a
    ring

/-- Witness for `c9_amended_no_input_validation` at a concrete input. -/
theorem c9_witness :
    (0 : ℚ) ≤ 1/1000 ∧ 1 ≤ 2 ∧
    (((binary_search (fun x : ℚ => x) 3 3 (1/1000) 2).success = true ∧
      (binary_search (fun x : ℚ => x) 3 3 (1/1000) 2).nit = 0 ∧
      (binary_search (fun x : ℚ => x) 3 3 (1/1000) 2).x = 3) ∧
    ((golden_search 2 (fun x : ℚ => x) 3 3 (1/1000) 2).success = true ∧
      (golden_search 2 (fun x : ℚ => x) 3 3 (1/1000) 2).nit = 0 ∧
      (golden_search 2 (fun x : ℚ => x) 3 3 (1/1000) 2).x = 3)) :=
  ⟨by norm_num, by decide,
    c9_amended_no_input_validation (fun x : ℚ => x) 3 (1/1000) 2 2 (by norm_num) (by decide)⟩

/-- C10: for `binary_search` and `golden_search`, starting from any bracket
with `a ≤ b`, the loop keeps the current bracket inside the initial one
(with `a ≤ c ≤ b` maintained in `binary_search`), so the returned solution
lies within the initial bracket `[a, b]` of the caller. -/
theorem c10_solution_within_initial_bracket (f : K → K) (a b accuracy tau : K)
    (hab : a ≤ b) (htau : tau * tau = tau + 1) (h1tau : 1 ≤ tau) (ms : Nat) :
    (a ≤ (binary_search f a b accuracy ms).x ∧ (binary_search f a b accuracy ms).x ≤ b) ∧
    (a ≤ (golden_search tau f a b accuracy ms).x ∧
      (golden_search tau f a b accuracy ms).x ≤ b) := by
  constructor
  · obtain ⟨i1, i2, i3, i4⟩ := binaryIter_inv f accuracy a b hab ms
    have hx : (binary_search f a b accuracy ms).x =
        ((binaryPass f accuracy)^[ms] ⟨a, b, (a + b) / 2, 0, 0, false⟩).c := rfl
    constructor <;> rw [hx, i2] <;> linarith
  · obtain ⟨i1, -, -, i4, i5⟩ := goldenIter_inv tau f accuracy a b htau h1tau hab ms
    have hx : (golden_search tau f a b accuracy ms).x =
        (((goldenPass tau f accuracy)^[ms]
            ⟨a, b, a + (b - a) / tau ^ 2, a + (b - a) / tau, 0, 0, false⟩).a +
          ((goldenPass tau f accuracy)^[ms]
            ⟨a, b, a + (b - a) / tau ^ 2, a + (b - a) / tau, 0, 0, false⟩).b) / 2 := rfl
    constructor <;> rw [hx] <;> linarith

/-- Witness for `c10_solution_within_initial_bracket` at a concrete input
over `ℝ` with the true golden ratio. -/
theorem c10_witness :
    (0 : ℝ) ≤ 1 ∧ goldenRatio * goldenRatio = goldenRatio + 1 ∧ 1 ≤ goldenRatio ∧
    ((0 ≤ (binary_search (fun x : ℝ => x) 0 1 (1/4) 3).x ∧
      (binary_search (fun x : ℝ => x) 0 1 (1/4) 3).x ≤ 1) ∧
    (0 ≤ (golden_search goldenRatio (fun x : ℝ => x) 0 1 (1/4) 3).x ∧
      (golden_search goldenRatio (fun x : ℝ => x) 0 1 (1/4) 3).x ≤ 1)) :=
  ⟨by norm_num, by rw [← pow_two]; exact gold_sq, one_lt_gold.le,
    c10_solution_within_initial_bracket (fun x : ℝ => x) 0 1 (1/4) goldenRatio (by norm_num)
      (by rw [← pow_two]; exact gold_sq) one_lt_gold.le 3⟩

end BenchmarkOpt
